import Mathlib

/-!
Verification of canalyze-fw: CAN interface configuration and lifecycle (`src/can.c`).

A shallow embedding of `can.c`.  The file-scope variables of the translation
unit (`can_handle`, `enabled`, `sFilterConfig`) become the fields of one state
record that every function takes and returns.  The vendor HAL is outside the
translation unit:

* its functions `HAL_CAN_Init`, `HAL_CAN_ConfigFilter` and `HAL_CAN_DeInit`
  are status oracles: the `HAL_StatusTypeDef` value they return is an argument
  of the embedded function, and the call is recorded in a log;
* its named constants (`ENABLE`, `CAN_MODE_SILENT`, ...) are the fields of a
  parameter record `HalConsts`;
* its macros `__HAL_CAN_ENABLE_IT` / `__HAL_CAN_DISABLE_IT` add a source to, or
  remove it from, the set of enabled interrupt sources, and
  `__HAL_CAN_MSG_PENDING` is an oracle for the receive queue depth.

Machine integers are natural numbers; a store into a `uint32_t` field whose
value is computed by a shift is reduced modulo `2 ^ 32`, and a `uint8_t`
return value modulo `2 ^ 8`.
-/

namespace Canalyze

/-! ## Constants defined in `can.c` -/

/-- The control mode bit `USB_8DEV_CAN_MODE_SILENT` (can.c line 7). -/
def USB_8DEV_CAN_MODE_SILENT : Nat := 0x01

/-- The control mode bit `USB_8DEV_CAN_MODE_LOOPBACK` (can.c line 8). -/
def USB_8DEV_CAN_MODE_LOOPBACK : Nat := 0x02

/-- The control mode bit `USB_8DEV_MODE_ONESHOT` (can.c line 9). -/
def USB_8DEV_MODE_ONESHOT : Nat := 0x04

/-! ## What the HAL headers provide -/

/-- Named constants of the HAL headers that `can.c` uses.  Their numeric values
are not part of `can.c`, so they are parameters of the embedding. `CANx` and
the two message addresses stand for the pointers stored in the handle. -/
structure HalConsts where
  DISABLE : Nat
  ENABLE : Nat
  CAN_MODE_NORMAL : Nat
  CAN_MODE_SILENT : Nat
  CAN_MODE_LOOPBACK : Nat
  CAN_FILTERMODE_IDMASK : Nat
  CAN_FILTERSCALE_32BIT : Nat
  CAN_FIFO0 : Nat
  CANx : Nat
  addrTxMessage : Nat
  addrRxMessage : Nat
  deriving DecidableEq

/-- The values these constants have in the STM32F0 HAL (`stm32f0xx_hal_def.h`,
`stm32f0xx_hal_can.h`), used to instantiate the parameters at concrete inputs.
The two message addresses are link-time values; any two numbers serve. -/
def stm32f0 : HalConsts where
  DISABLE := 0
  ENABLE := 1
  CAN_MODE_NORMAL := 0x00000000
  CAN_MODE_SILENT := 0x80000000
  CAN_MODE_LOOPBACK := 0x40000000
  CAN_FILTERMODE_IDMASK := 0
  CAN_FILTERSCALE_32BIT := 1
  CAN_FIFO0 := 0
  CANx := 0x40006400
  addrTxMessage := 0x20000100
  addrRxMessage := 0x20000140

/-- Interrupt sources of the CAN peripheral, named as the `CAN_IT_*` arguments
of `__HAL_CAN_ENABLE_IT` and `__HAL_CAN_DISABLE_IT`. -/
inductive CanIt where
  | TME | FMP0 | FF0 | FOV0 | FMP1 | FF1 | FOV1
  | WKU | SLK | EWG | EPV | BOF | LEC | ERR
  deriving DecidableEq

/-- Operations on the peripheral that `can.c` performs through the HAL, in the
order in which they are recorded in the log of the state. -/
inductive HalOp where
  | init
  | configFilter
  | deInit
  | enableIt (src : CanIt)
  | disableIt (src : CanIt)
  | msgPending
  deriving DecidableEq

/-! ## Data model -/

/-- The bit timing request `Can_BitTimingTypeDef` read by `can_open_req`. -/
structure Can_BitTimingTypeDef where
  sjw : Nat
  ts1 : Nat
  ts2 : Nat
  brp : Nat
  deriving DecidableEq

/-- The fields of `can_handle.Init` (`CAN_InitTypeDef`). -/
structure CAN_InitTypeDef where
  Prescaler : Nat
  Mode : Nat
  SJW : Nat
  BS1 : Nat
  BS2 : Nat
  TTCM : Nat
  ABOM : Nat
  AWUM : Nat
  NART : Nat
  RFLM : Nat
  TXFP : Nat
  deriving DecidableEq

/-- The fields of `sFilterConfig` (`CAN_FilterConfTypeDef`). -/
structure CAN_FilterConfTypeDef where
  FilterIdHigh : Nat
  FilterIdLow : Nat
  FilterMaskIdHigh : Nat
  FilterMaskIdLow : Nat
  FilterFIFOAssignment : Nat
  FilterNumber : Nat
  FilterMode : Nat
  FilterScale : Nat
  FilterActivation : Nat
  BankNumber : Nat
  deriving DecidableEq

/-- The part of `can_handle` (`CAN_HandleTypeDef`) that `can.c` writes. -/
structure CAN_HandleTypeDef where
  Instance : Nat
  Init : CAN_InitTypeDef
  pTxMsg : Nat
  pRxMsg : Nat
  deriving DecidableEq

/-- The state of the translation unit and of the peripheral it drives:
the three file-scope variables, the set of enabled interrupt sources
(the peripheral's interrupt enable mask) and the log of HAL operations. -/
structure CanState where
  can_handle : CAN_HandleTypeDef
  enabled : Nat
  sFilterConfig : CAN_FilterConfTypeDef
  ier : CanIt → Bool
  log : List HalOp

/-- The state at reset: zero-initialised variables, no interrupt source
enabled, nothing logged. -/
def bootState : CanState where
  can_handle := ⟨0, ⟨0, 0, 0, 0, 0, 0, 0, 0, 0, 0, 0⟩, 0, 0⟩
  enabled := 0
  sFilterConfig := ⟨0, 0, 0, 0, 0, 0, 0, 0, 0, 0⟩
  ier := fun _ => false
  log := []

/-! ## The HAL macros -/

/-- Modelled from the spec: the HAL macro `__HAL_CAN_ENABLE_IT(&can_handle, src)`,
whose definition is in the HAL headers and not in `can.c`. It is the interrupt
enable primitive per named source: the source joins the set of enabled
sources, every other source is untouched. -/
def __HAL_CAN_ENABLE_IT (src : CanIt) (s : CanState) : CanState :=
  { s with
    ier := fun x => if x = src then true else s.ier x
    log := s.log ++ [HalOp.enableIt src] }

/-- Modelled from the spec: the HAL macro `__HAL_CAN_DISABLE_IT(&can_handle, src)`,
whose definition is in the HAL headers and not in `can.c`. It is the interrupt
disable primitive per named source: the source leaves the set of enabled
sources, every other source is untouched. -/
def __HAL_CAN_DISABLE_IT (src : CanIt) (s : CanState) : CanState :=
  { s with
    ier := fun x => if x = src then false else s.ier x
    log := s.log ++ [HalOp.disableIt src] }

/-- Record one HAL operation in the log. -/
def record (op : HalOp) (s : CanState) : CanState :=
  { s with log := s.log ++ [op] }

/-! ## The functions of `can.c` -/

/-- Function `can_init` (can.c lines 31-34). -/
def can_init (s : CanState) : Nat × CanState :=
  (0, { s with enabled := 0 })

/-- Function `can_open_req` (can.c lines 46-96): the assignments in source order. -/
def can_open_req (K : HalConsts) (can_bittiming : Can_BitTimingTypeDef) (ctrlmode : Nat)
    (s : CanState) : CanState :=
  let h : CAN_HandleTypeDef := s.can_handle
  let h : CAN_HandleTypeDef := { h with Instance := K.CANx }
  let h : CAN_HandleTypeDef := { h with pTxMsg := K.addrTxMessage }
  let h : CAN_HandleTypeDef := { h with pRxMsg := K.addrRxMessage }
  let i : CAN_InitTypeDef := h.Init
  let i : CAN_InitTypeDef := { i with TTCM := K.DISABLE }
  let i : CAN_InitTypeDef := { i with ABOM := K.DISABLE }
  let i : CAN_InitTypeDef := { i with AWUM := K.DISABLE }
  let i : CAN_InitTypeDef := { i with NART := K.DISABLE }
  let i : CAN_InitTypeDef := if ctrlmode &&& USB_8DEV_MODE_ONESHOT ≠ 0
    then { i with NART := K.ENABLE } else i
  let i : CAN_InitTypeDef := { i with RFLM := K.DISABLE }
  let i : CAN_InitTypeDef := { i with TXFP := K.DISABLE }
  let i : CAN_InitTypeDef := { i with Mode := K.CAN_MODE_NORMAL }
  let i : CAN_InitTypeDef := if ctrlmode &&& USB_8DEV_CAN_MODE_SILENT ≠ 0
    then { i with Mode := i.Mode ||| K.CAN_MODE_SILENT } else i
  let i : CAN_InitTypeDef := if ctrlmode &&& USB_8DEV_CAN_MODE_LOOPBACK ≠ 0
    then { i with Mode := i.Mode ||| K.CAN_MODE_LOOPBACK } else i
  let i : CAN_InitTypeDef := { i with SJW := (can_bittiming.sjw <<< (6 * 4)) % 2 ^ 32 }
  let i : CAN_InitTypeDef := { i with BS1 := (can_bittiming.ts1 <<< (4 * 4)) % 2 ^ 32 }
  let i : CAN_InitTypeDef := { i with BS2 := (can_bittiming.ts2 <<< (5 * 4)) % 2 ^ 32 }
  let i : CAN_InitTypeDef := { i with Prescaler := can_bittiming.brp % 2 ^ 32 }
  let h : CAN_HandleTypeDef := { h with Init := i }
  let f : CAN_FilterConfTypeDef := s.sFilterConfig
  let f : CAN_FilterConfTypeDef := { f with FilterNumber := 0 }
  let f : CAN_FilterConfTypeDef := { f with FilterMode := K.CAN_FILTERMODE_IDMASK }
  let f : CAN_FilterConfTypeDef := { f with FilterScale := K.CAN_FILTERSCALE_32BIT }
  let f : CAN_FilterConfTypeDef := { f with FilterIdHigh := 0x0000 }
  let f : CAN_FilterConfTypeDef := { f with FilterIdLow := 0x0000 }
  let f : CAN_FilterConfTypeDef := { f with FilterMaskIdHigh := 0x0000 }
  let f : CAN_FilterConfTypeDef := { f with FilterMaskIdLow := 0x0000 }
  let f : CAN_FilterConfTypeDef := { f with FilterFIFOAssignment := K.CAN_FIFO0 }
  let f : CAN_FilterConfTypeDef := { f with FilterActivation := K.ENABLE }
  let f : CAN_FilterConfTypeDef := { f with BankNumber := 14 }
  { s with can_handle := h, sFilterConfig := f }

/-- Function `can_interrupts_enable` (can.c lines 169-188). The FIFO0 overrun line is
commented out in the source and so is absent here. -/
def can_interrupts_enable (s : CanState) : CanState :=
  let s := __HAL_CAN_ENABLE_IT CanIt.EWG s
  let s := __HAL_CAN_ENABLE_IT CanIt.EPV s
  let s := __HAL_CAN_ENABLE_IT CanIt.BOF s
  let s := __HAL_CAN_ENABLE_IT CanIt.LEC s
  let s := __HAL_CAN_ENABLE_IT CanIt.ERR s
  s

/-- Function `can_interrupts_disable` (can.c lines 190-208). -/
def can_interrupts_disable (s : CanState) : CanState :=
  let s := __HAL_CAN_DISABLE_IT CanIt.EWG s
  let s := __HAL_CAN_DISABLE_IT CanIt.EPV s
  let s := __HAL_CAN_DISABLE_IT CanIt.BOF s
  let s := __HAL_CAN_DISABLE_IT CanIt.LEC s
  let s := __HAL_CAN_DISABLE_IT CanIt.ERR s
  s

/-- Function `can_open` (can.c lines 105-118). `halInit` and `halConfigFilter` are the
statuses that `HAL_CAN_Init` and `HAL_CAN_ConfigFilter` return (`HAL_OK = 0`);
the second is consulted only if the first call succeeded. -/
def can_open (halInit halConfigFilter : Nat) (s : CanState) : Nat × CanState :=
  let s := record HalOp.init s
  if halInit ≠ 0 then (1, s)
  else
    let s := record HalOp.configFilter s
    if halConfigFilter ≠ 0 then (2, s)
    else
      let s := can_interrupts_enable s
      let s := { s with enabled := 1 }
      (0, s)

/-- Function `can_close` (can.c lines 123-130). `halDeInit` is the status that
`HAL_CAN_DeInit` returns. -/
def can_close (halDeInit : Nat) (s : CanState) : Nat × CanState :=
  let s := can_interrupts_disable s
  let s := record HalOp.deInit s
  if halDeInit ≠ 0 then (1, s)
  else
    let s := { s with enabled := 0 }
    (0, s)

/-- Function `can_msg_pending` (can.c lines 161-167). `pending` is the value of
`__HAL_CAN_MSG_PENDING(&can_handle, CAN_FIFO0)`; it is read, and the read
logged, only in the `else` branch. The result is a `uint8_t`. -/
def can_msg_pending (pending : Nat) (s : CanState) : Nat × CanState :=
  if s.enabled = 0 then (0, s)
  else (pending % 2 ^ 8, record HalOp.msgPending s)

/-- The five error interrupt sources handled by `can_interrupts_enable` and
`can_interrupts_disable`. -/
def errorSources : List CanIt :=
  [CanIt.EWG, CanIt.EPV, CanIt.BOF, CanIt.LEC, CanIt.ERR]

/-- The timing word obtained by OR-ing the three stored timing fields. -/
def timingWord (i : CAN_InitTypeDef) : Nat :=
  i.SJW ||| i.BS1 ||| i.BS2

/-- A state with the interface open: reset, `can_init`, a request with the
timing `sjw = 0, ts1 = 10, ts2 = 4, brp = 2` in normal mode, and a `can_open`
whose two HAL calls succeed. -/
def openedState : CanState :=
  (can_open 0 0 (can_open_req stm32f0 ⟨0, 10, 4, 2⟩ 0 (can_init bootState).2)).2

/-! ## Closed forms of `can_open_req` -/

/-- The mode word that `can_open_req` composes from the control mode byte. -/
def modeWord (K : HalConsts) (ctrlmode : Nat) : Nat :=
  let m := K.CAN_MODE_NORMAL
  let m := if ctrlmode &&& 0x01 ≠ 0 then m ||| K.CAN_MODE_SILENT else m
  if ctrlmode &&& 0x02 ≠ 0 then m ||| K.CAN_MODE_LOOPBACK else m

/-- The acceptance filter that `can_open_req` stores. -/
def acceptAllFilter (K : HalConsts) : CAN_FilterConfTypeDef where
  FilterIdHigh := 0
  FilterIdLow := 0
  FilterMaskIdHigh := 0
  FilterMaskIdLow := 0
  FilterFIFOAssignment := K.CAN_FIFO0
  FilterNumber := 0
  FilterMode := K.CAN_FILTERMODE_IDMASK
  FilterScale := K.CAN_FILTERSCALE_32BIT
  FilterActivation := K.ENABLE
  BankNumber := 14

theorem can_open_req_Mode (K : HalConsts) (bt : Can_BitTimingTypeDef) (c : Nat) (s : CanState) :
    (can_open_req K bt c s).can_handle.Init.Mode = modeWord K c := by
  unfold can_open_req modeWord USB_8DEV_CAN_MODE_SILENT USB_8DEV_CAN_MODE_LOOPBACK
  dsimp only
  split_ifs <;> rfl

theorem can_open_req_NART (K : HalConsts) (bt : Can_BitTimingTypeDef) (c : Nat) (s : CanState) :
    (can_open_req K bt c s).can_handle.Init.NART =
      if c &&& 0x04 ≠ 0 then K.ENABLE else K.DISABLE := by
  unfold can_open_req USB_8DEV_MODE_ONESHOT
  dsimp only
  split_ifs <;> rfl

theorem can_open_req_timing (K : HalConsts) (bt : Can_BitTimingTypeDef) (c : Nat)
    (s : CanState) :
    (can_open_req K bt c s).can_handle.Init.SJW = (bt.sjw <<< 24) % 2 ^ 32 ∧
    (can_open_req K bt c s).can_handle.Init.BS1 = (bt.ts1 <<< 16) % 2 ^ 32 ∧
    (can_open_req K bt c s).can_handle.Init.BS2 = (bt.ts2 <<< 20) % 2 ^ 32 ∧
    (can_open_req K bt c s).can_handle.Init.Prescaler = bt.brp % 2 ^ 32 := by
  exact ⟨rfl, rfl, rfl, rfl⟩

theorem can_open_req_filter (K : HalConsts) (bt : Can_BitTimingTypeDef) (c : Nat)
    (s : CanState) :
    (can_open_req K bt c s).sFilterConfig = acceptAllFilter K := by
  rfl

theorem can_open_req_frame (K : HalConsts) (bt : Can_BitTimingTypeDef) (c : Nat)
    (s : CanState) :
    (can_open_req K bt c s).enabled = s.enabled ∧
    (can_open_req K bt c s).ier = s.ier ∧
    (can_open_req K bt c s).log = s.log := by
  exact ⟨rfl, rfl, rfl⟩

/-- The stored request depends on the control mode byte only through its three
recognised bits. -/
theorem can_open_req_congr (K : HalConsts) (bt : Can_BitTimingTypeDef) (c d : Nat)
    (s : CanState) (h1 : c &&& 0x01 = d &&& 0x01) (h2 : c &&& 0x02 = d &&& 0x02)
    (h4 : c &&& 0x04 = d &&& 0x04) :
    can_open_req K bt c s = can_open_req K bt d s := by
  unfold can_open_req USB_8DEV_CAN_MODE_SILENT USB_8DEV_CAN_MODE_LOOPBACK USB_8DEV_MODE_ONESHOT
  rw [h1, h2, h4]

/-- Overwriting a stored request: the earlier request leaves no trace. -/
theorem can_open_req_overwrite (K : HalConsts) (a b : Can_BitTimingTypeDef) (m1 m2 : Nat)
    (s : CanState) :
    can_open_req K b m2 (can_open_req K a m1 s) = can_open_req K b m2 s := by
  unfold can_open_req
  dsimp only
  split_ifs <;> rfl

theorem can_open_req_handle_indep (K : HalConsts) (bt : Can_BitTimingTypeDef) (c : Nat)
    (s t : CanState) :
    (can_open_req K bt c s).can_handle = (can_open_req K bt c t).can_handle := by
  unfold can_open_req
  dsimp only
  split_ifs <;> rfl

/-! ## Bit-level facts -/

theorem land_seven_land (c k : Nat) (hk : 7 &&& k = k) : (c &&& 7) &&& k = c &&& k := by
  rw [Nat.and_assoc, hk]

theorem xor_land_of_disjoint (c t k : Nat) (hk : t &&& k = 0) : (c ^^^ t) &&& k = c &&& k := by
  rw [Nat.and_xor_distrib_right, hk, Nat.xor_zero]

/-- The timing word built from three values shifted to offsets 24, 16 and 20
unpacks to these values, and the three shifted fields share no bit. -/
def packOk (a b c : Nat) : Bool :=
  let x := (a <<< 24) % 2 ^ 32
  let y := (b <<< 16) % 2 ^ 32
  let z := (c <<< 20) % 2 ^ 32
  let w := x ||| y ||| z
  x >>> 24 == a && y >>> 16 == b && z >>> 20 == c &&
    x &&& y == 0 && x &&& z == 0 && y &&& z == 0 &&
    w >>> 24 == a && (w >>> 16) &&& 0xF == b && (w >>> 20) &&& 0xF == c

theorem packOk_legal : ∀ a < 4, ∀ b < 16, ∀ c < 8, packOk a b c = true := by
  decide

theorem packOk_spec (a b c : Nat) (h : packOk a b c = true) :
    ((a <<< 24) % 2 ^ 32) >>> 24 = a ∧
    ((b <<< 16) % 2 ^ 32) >>> 16 = b ∧
    ((c <<< 20) % 2 ^ 32) >>> 20 = c ∧
    ((a <<< 24) % 2 ^ 32) &&& ((b <<< 16) % 2 ^ 32) = 0 ∧
    ((a <<< 24) % 2 ^ 32) &&& ((c <<< 20) % 2 ^ 32) = 0 ∧
    ((b <<< 16) % 2 ^ 32) &&& ((c <<< 20) % 2 ^ 32) = 0 ∧
    (((a <<< 24) % 2 ^ 32) ||| ((b <<< 16) % 2 ^ 32) ||| ((c <<< 20) % 2 ^ 32)) >>> 24 = a ∧
    ((((a <<< 24) % 2 ^ 32) ||| ((b <<< 16) % 2 ^ 32) ||| ((c <<< 20) % 2 ^ 32)) >>> 16)
      &&& 0xF = b ∧
    ((((a <<< 24) % 2 ^ 32) ||| ((b <<< 16) % 2 ^ 32) ||| ((c <<< 20) % 2 ^ 32)) >>> 20)
      &&& 0xF = c := by
  unfold packOk at h
  simp only [Bool.and_eq_true, beq_iff_eq] at h
  obtain ⟨⟨⟨⟨⟨⟨⟨⟨h1, h2⟩, h3⟩, h4⟩, h5⟩, h6⟩, h7⟩, h8⟩, h9⟩ := h
  exact ⟨h1, h2, h3, h4, h5, h6, h7, h8, h9⟩

/-! ## The configuration request -/

/-- C5. Round trip of the bit timing translation in `can_open_req`: for
`sjw ≤ 3`, `ts1 ≤ 15`, `ts2 ≤ 7` and a 32-bit `brp`, the stored fields satisfy
`SJW >> 24 = sjw`, `BS1 >> 16 = ts1`, `BS2 >> 20 = ts2` and `Prescaler = brp`;
`SJW`, `BS1` and `BS2` have pairwise disjoint set bits; and the word
`SJW | BS1 | BS2`, unpacked at bits 24.., 16..19 and 20..23, gives back `sjw`,
`ts1` and `ts2`. -/
theorem bittiming_roundtrip (K : HalConsts) (bt : Can_BitTimingTypeDef) (ctrlmode : Nat)
    (s : CanState) (hsjw : bt.sjw ≤ 3) (hts1 : bt.ts1 ≤ 15) (hts2 : bt.ts2 ≤ 7)
    (hbrp : bt.brp < 2 ^ 32) :
    (can_open_req K bt ctrlmode s).can_handle.Init.SJW >>> 24 = bt.sjw ∧
    (can_open_req K bt ctrlmode s).can_handle.Init.BS1 >>> 16 = bt.ts1 ∧
    (can_open_req K bt ctrlmode s).can_handle.Init.BS2 >>> 20 = bt.ts2 ∧
    (can_open_req K bt ctrlmode s).can_handle.Init.Prescaler = bt.brp ∧
    (can_open_req K bt ctrlmode s).can_handle.Init.SJW &&&
      (can_open_req K bt ctrlmode s).can_handle.Init.BS1 = 0 ∧
    (can_open_req K bt ctrlmode s).can_handle.Init.SJW &&&
      (can_open_req K bt ctrlmode s).can_handle.Init.BS2 = 0 ∧
    (can_open_req K bt ctrlmode s).can_handle.Init.BS1 &&&
      (can_open_req K bt ctrlmode s).can_handle.Init.BS2 = 0 ∧
    timingWord (can_open_req K bt ctrlmode s).can_handle.Init >>> 24 = bt.sjw ∧
    (timingWord (can_open_req K bt ctrlmode s).can_handle.Init >>> 16) &&& 0xF = bt.ts1 ∧
    (timingWord (can_open_req K bt ctrlmode s).can_handle.Init >>> 20) &&& 0xF = bt.ts2 := by
  obtain ⟨e1, e2, e3, e4⟩ := can_open_req_timing K bt ctrlmode s
  have hp := packOk_spec bt.sjw bt.ts1 bt.ts2
    (packOk_legal bt.sjw (by omega) bt.ts1 (by omega) bt.ts2 (by omega))
  unfold timingWord
  rw [e1, e2, e3, e4]
  obtain ⟨h1, h2, h3, h4, h5, h6, h7, h8, h9⟩ := hp
  exact ⟨h1, h2, h3, Nat.mod_eq_of_lt hbrp, h4, h5, h6, h7, h8, h9⟩

/-- Witness for C5 at the largest legal timing, `sjw = 3, ts1 = 15, ts2 = 7`,
with `brp = 4294967295`: the timing word is `0x037F0000`. -/
theorem bittiming_roundtrip_witness :
    ((3 : Nat) ≤ 3 ∧ (15 : Nat) ≤ 15 ∧ (7 : Nat) ≤ 7 ∧ (4294967295 : Nat) < 2 ^ 32) ∧
    (can_open_req stm32f0 ⟨3, 15, 7, 4294967295⟩ 0 bootState).can_handle.Init.SJW >>> 24 = 3 ∧
    (can_open_req stm32f0 ⟨3, 15, 7, 4294967295⟩ 0 bootState).can_handle.Init.BS1 >>> 16 = 15 ∧
    (can_open_req stm32f0 ⟨3, 15, 7, 4294967295⟩ 0 bootState).can_handle.Init.BS2 >>> 20 = 7 ∧
    (can_open_req stm32f0 ⟨3, 15, 7, 4294967295⟩ 0 bootState).can_handle.Init.Prescaler
      = 4294967295 ∧
    (can_open_req stm32f0 ⟨3, 15, 7, 4294967295⟩ 0 bootState).can_handle.Init.SJW &&&
      (can_open_req stm32f0 ⟨3, 15, 7, 4294967295⟩ 0 bootState).can_handle.Init.BS1 = 0 ∧
    (can_open_req stm32f0 ⟨3, 15, 7, 4294967295⟩ 0 bootState).can_handle.Init.SJW &&&
      (can_open_req stm32f0 ⟨3, 15, 7, 4294967295⟩ 0 bootState).can_handle.Init.BS2 = 0 ∧
    (can_open_req stm32f0 ⟨3, 15, 7, 4294967295⟩ 0 bootState).can_handle.Init.BS1 &&&
      (can_open_req stm32f0 ⟨3, 15, 7, 4294967295⟩ 0 bootState).can_handle.Init.BS2 = 0 ∧
    timingWord (can_open_req stm32f0 ⟨3, 15, 7, 4294967295⟩ 0 bootState).can_handle.Init
      >>> 24 = 3 ∧
    (timingWord (can_open_req stm32f0 ⟨3, 15, 7, 4294967295⟩ 0 bootState).can_handle.Init
      >>> 16) &&& 0xF = 15 ∧
    (timingWord (can_open_req stm32f0 ⟨3, 15, 7, 4294967295⟩ 0 bootState).can_handle.Init
      >>> 20) &&& 0xF = 7 :=
  ⟨by decide,
   bittiming_roundtrip stm32f0 ⟨3, 15, 7, 4294967295⟩ 0 bootState
    (by decide) (by decide) (by decide) (by decide)⟩

/-- C6. Mode composition in `can_open_req`: the stored `Init.Mode` is
`CAN_MODE_NORMAL`, OR-ed with `CAN_MODE_SILENT` exactly when bit 0x01 of
`ctrlmode` is set and with `CAN_MODE_LOOPBACK` exactly when bit 0x02 is set.
So `ctrlmode = SILENT` gives `NORMAL | SILENT` (no loopback bit when the HAL's
loopback bit is not part of `NORMAL | SILENT`), `ctrlmode = SILENT | LOOPBACK`
gives `NORMAL | SILENT | LOOPBACK`, and a `ctrlmode` with only unsupported bits
gives exactly `NORMAL`. -/
theorem mode_composition (K : HalConsts) (bt : Can_BitTimingTypeDef) (ctrlmode : Nat)
    (s : CanState) :
    (can_open_req K bt ctrlmode s).can_handle.Init.Mode =
      (K.CAN_MODE_NORMAL ||| (if ctrlmode &&& 0x01 ≠ 0 then K.CAN_MODE_SILENT else 0)) |||
        (if ctrlmode &&& 0x02 ≠ 0 then K.CAN_MODE_LOOPBACK else 0) ∧
    (ctrlmode = USB_8DEV_CAN_MODE_SILENT →
      (can_open_req K bt ctrlmode s).can_handle.Init.Mode =
        K.CAN_MODE_NORMAL ||| K.CAN_MODE_SILENT) ∧
    (ctrlmode = USB_8DEV_CAN_MODE_SILENT →
      (K.CAN_MODE_NORMAL ||| K.CAN_MODE_SILENT) &&& K.CAN_MODE_LOOPBACK = 0 →
      (can_open_req K bt ctrlmode s).can_handle.Init.Mode &&& K.CAN_MODE_LOOPBACK = 0) ∧
    (ctrlmode = USB_8DEV_CAN_MODE_SILENT ||| USB_8DEV_CAN_MODE_LOOPBACK →
      (can_open_req K bt ctrlmode s).can_handle.Init.Mode =
        K.CAN_MODE_NORMAL ||| K.CAN_MODE_SILENT ||| K.CAN_MODE_LOOPBACK) ∧
    (ctrlmode &&& 0x07 = 0 →
      (can_open_req K bt ctrlmode s).can_handle.Init.Mode = K.CAN_MODE_NORMAL) := by
  rw [can_open_req_Mode]
  refine ⟨?_, ?_, ?_, ?_, ?_⟩
  · unfold modeWord
    dsimp only
    split_ifs <;> simp
  · rintro rfl
    rfl
  · rintro rfl h
    exact h
  · rintro rfl
    rfl
  · intro h
    have h1 : ctrlmode &&& 0x01 = 0 := by
      rw [← land_seven_land ctrlmode 1 (by decide), h]; rfl
    have h2 : ctrlmode &&& 0x02 = 0 := by
      rw [← land_seven_land ctrlmode 2 (by decide), h]; rfl
    unfold modeWord
    simp [h1, h2]

/-- Witness for C6 with the STM32F0 constants: `ctrlmode = 0x01` stores
`0x80000000`, which has no loopback bit; `ctrlmode = 0x03` stores `0xC0000000`;
`ctrlmode = 0xF8` stores `0`. -/
theorem mode_composition_witness :
    (can_open_req stm32f0 ⟨0, 10, 4, 2⟩ 0x01 bootState).can_handle.Init.Mode = 0x80000000 ∧
    (can_open_req stm32f0 ⟨0, 10, 4, 2⟩ 0x01 bootState).can_handle.Init.Mode
      &&& stm32f0.CAN_MODE_LOOPBACK = 0 ∧
    (can_open_req stm32f0 ⟨0, 10, 4, 2⟩ 0x03 bootState).can_handle.Init.Mode = 0xC0000000 ∧
    (can_open_req stm32f0 ⟨0, 10, 4, 2⟩ 0xF8 bootState).can_handle.Init.Mode = 0 :=
  ⟨(mode_composition stm32f0 ⟨0, 10, 4, 2⟩ 0x01 bootState).2.1 rfl,
   (mode_composition stm32f0 ⟨0, 10, 4, 2⟩ 0x01 bootState).2.2.1 rfl (by decide),
   (mode_composition stm32f0 ⟨0, 10, 4, 2⟩ 0x03 bootState).2.2.2.1 rfl,
   (mode_composition stm32f0 ⟨0, 10, 4, 2⟩ 0xF8 bootState).2.2.2.2 (by decide)⟩

/-- C7. Unsupported mode bits are ignored: `can_open_req` stores the same
configuration for `ctrlmode` and for `ctrlmode & 0x07`, and hence the same
configuration (every `Init` field, the filter, and the rest of the state) for
any two control mode bytes that agree on SILENT (0x01), LOOPBACK (0x02) and
ONESHOT (0x04). -/
theorem unsupported_bits_ignored (K : HalConsts) (bt : Can_BitTimingTypeDef) (c1 c2 : Nat)
    (s : CanState) :
    can_open_req K bt c1 s = can_open_req K bt (c1 &&& 0x07) s ∧
    (c1 &&& 0x07 = c2 &&& 0x07 → can_open_req K bt c1 s = can_open_req K bt c2 s) := by
  have key : ∀ c d : Nat, c &&& 0x07 = d &&& 0x07 →
      can_open_req K bt c s = can_open_req K bt d s := by
    intro c d h
    apply can_open_req_congr
    · rw [← land_seven_land c 1 (by decide), ← land_seven_land d 1 (by decide), h]
    · rw [← land_seven_land c 2 (by decide), ← land_seven_land d 2 (by decide), h]
    · rw [← land_seven_land c 4 (by decide), ← land_seven_land d 4 (by decide), h]
  exact ⟨key c1 (c1 &&& 0x07) (land_seven_land c1 7 (by decide)).symm, key c1 c2⟩

/-- Witness for C7: `0xFD` and `0x05` agree on the recognised bits, and so
store the same request. -/
theorem unsupported_bits_ignored_witness :
    can_open_req stm32f0 ⟨0, 10, 4, 2⟩ 0xFD bootState =
      can_open_req stm32f0 ⟨0, 10, 4, 2⟩ 0x05 bootState :=
  (unsupported_bits_ignored stm32f0 ⟨0, 10, 4, 2⟩ 0xFD 0x05 bootState).2 (by decide)

/-- C8. One-shot handling in `can_open_req`: `Init.NART` is `ENABLE` when the
ONESHOT bit (0x04) of `ctrlmode` is set and `DISABLE` otherwise (so, the two
constants being different, it is `ENABLE` if and only if the bit is set);
toggling the ONESHOT bit does not change `Init.Mode`; toggling SILENT or
LOOPBACK does not change `Init.NART`. -/
theorem oneshot_handling (K : HalConsts) (bt : Can_BitTimingTypeDef) (ctrlmode : Nat)
    (s : CanState) :
    (can_open_req K bt ctrlmode s).can_handle.Init.NART =
      (if ctrlmode &&& USB_8DEV_MODE_ONESHOT ≠ 0 then K.ENABLE else K.DISABLE) ∧
    (K.ENABLE ≠ K.DISABLE →
      ((can_open_req K bt ctrlmode s).can_handle.Init.NART = K.ENABLE ↔
        ctrlmode &&& USB_8DEV_MODE_ONESHOT ≠ 0)) ∧
    (can_open_req K bt (ctrlmode ^^^ USB_8DEV_MODE_ONESHOT) s).can_handle.Init.Mode =
      (can_open_req K bt ctrlmode s).can_handle.Init.Mode ∧
    (can_open_req K bt (ctrlmode ^^^ USB_8DEV_CAN_MODE_SILENT) s).can_handle.Init.NART =
      (can_open_req K bt ctrlmode s).can_handle.Init.NART ∧
    (can_open_req K bt (ctrlmode ^^^ USB_8DEV_CAN_MODE_LOOPBACK) s).can_handle.Init.NART =
      (can_open_req K bt ctrlmode s).can_handle.Init.NART := by
  simp only [can_open_req_NART, can_open_req_Mode]
  unfold USB_8DEV_MODE_ONESHOT USB_8DEV_CAN_MODE_SILENT USB_8DEV_CAN_MODE_LOOPBACK
  refine ⟨rfl, ?_, ?_, ?_, ?_⟩
  · intro hne
    by_cases h : ctrlmode &&& 4 = 0
    · simp only [h, ne_eq, not_true_eq_false, if_false, iff_false]
      exact fun e => hne e.symm
    · simp only [h, ne_eq, not_false_eq_true, if_true]
  · unfold modeWord
    rw [xor_land_of_disjoint ctrlmode 4 1 (by decide),
      xor_land_of_disjoint ctrlmode 4 2 (by decide)]
  · rw [xor_land_of_disjoint ctrlmode 1 4 (by decide)]
  · rw [xor_land_of_disjoint ctrlmode 2 4 (by decide)]

/-- Witness for C8 with the STM32F0 constants: at `ctrlmode = 0x07` the
stored `NART` is `ENABLE`. -/
theorem oneshot_handling_witness :
    (can_open_req stm32f0 ⟨0, 10, 4, 2⟩ 0x07 bootState).can_handle.Init.NART = stm32f0.ENABLE ↔
      0x07 &&& USB_8DEV_MODE_ONESHOT ≠ 0 :=
  (oneshot_handling stm32f0 ⟨0, 10, 4, 2⟩ 0x07 bootState).2.1 (by decide)

/-- C9. The configuration stored by `can_open_req` has no hidden state: the
handle (every `Init` field) and the filter after `can_open_req(bt, ctrlmode)`
are the same whatever the previous state was, so a request made after an
earlier request stores what it would store alone; the filter is the constant
ID-mask, 32-bit, identifier 0, mask 0, FIFO 0, active filter; the `enabled`
flag is unchanged. -/
theorem open_req_no_hidden_state (K : HalConsts) (a b : Can_BitTimingTypeDef) (m1 m2 : Nat)
    (s t : CanState) :
    (can_open_req K b m2 s).can_handle = (can_open_req K b m2 t).can_handle ∧
    (can_open_req K b m2 s).sFilterConfig = (can_open_req K b m2 t).sFilterConfig ∧
    can_open_req K b m2 (can_open_req K a m1 s) = can_open_req K b m2 s ∧
    (can_open_req K b m2 s).sFilterConfig =
      { FilterIdHigh := 0, FilterIdLow := 0, FilterMaskIdHigh := 0, FilterMaskIdLow := 0,
        FilterFIFOAssignment := K.CAN_FIFO0, FilterNumber := 0,
        FilterMode := K.CAN_FILTERMODE_IDMASK, FilterScale := K.CAN_FILTERSCALE_32BIT,
        FilterActivation := K.ENABLE, BankNumber := 14 } ∧
    (can_open_req K b m2 s).enabled = s.enabled := by
  refine ⟨can_open_req_handle_indep K b m2 s t, ?_, can_open_req_overwrite K a b m1 m2 s,
    rfl, rfl⟩
  rw [can_open_req_filter, can_open_req_filter]

/-! ## Interrupt mask -/

theorem can_interrupts_enable_ier (s : CanState) (x : CanIt) :
    (can_interrupts_enable s).ier x = (s.ier x || decide (x ∈ errorSources)) := by
  cases x <;> simp [can_interrupts_enable, __HAL_CAN_ENABLE_IT, errorSources]

theorem can_interrupts_disable_ier (s : CanState) (x : CanIt) :
    (can_interrupts_disable s).ier x = (s.ier x && !decide (x ∈ errorSources)) := by
  cases x <;> simp [can_interrupts_disable, __HAL_CAN_DISABLE_IT, errorSources]

theorem can_interrupts_enable_frame (s : CanState) :
    (can_interrupts_enable s).enabled = s.enabled ∧
    (can_interrupts_enable s).can_handle = s.can_handle ∧
    (can_interrupts_enable s).sFilterConfig = s.sFilterConfig :=
  ⟨rfl, rfl, rfl⟩

theorem can_interrupts_disable_frame (s : CanState) :
    (can_interrupts_disable s).enabled = s.enabled ∧
    (can_interrupts_disable s).can_handle = s.can_handle ∧
    (can_interrupts_disable s).sFilterConfig = s.sFilterConfig :=
  ⟨rfl, rfl, rfl⟩

/-! ## Lifecycle -/

theorem can_open_status (halInit halConfigFilter : Nat) (s : CanState) :
    (can_open halInit halConfigFilter s).1 =
      if halInit ≠ 0 then 1 else if halConfigFilter ≠ 0 then 2 else 0 := by
  unfold can_open
  dsimp only
  split_ifs <;> rfl

theorem can_open_enabled (halInit halConfigFilter : Nat) (s : CanState) :
    (can_open halInit halConfigFilter s).2.enabled =
      if halInit ≠ 0 then s.enabled else if halConfigFilter ≠ 0 then s.enabled else 1 := by
  unfold can_open
  dsimp only
  split_ifs <;> rfl

theorem can_open_ier (halInit halConfigFilter : Nat) (s : CanState) (x : CanIt) :
    (can_open halInit halConfigFilter s).2.ier x =
      if halInit = 0 ∧ halConfigFilter = 0 then (s.ier x || decide (x ∈ errorSources))
      else s.ier x := by
  unfold can_open
  dsimp only
  by_cases hi : halInit = 0 <;> by_cases hf : halConfigFilter = 0 <;>
    simp only [hi, hf, ne_eq, not_true_eq_false, not_false_eq_true, if_true, if_false,
      and_self, and_false, false_and]
  · exact can_interrupts_enable_ier (record HalOp.configFilter (record HalOp.init s)) x
  · rfl
  · rfl
  · rfl

theorem can_close_status (halDeInit : Nat) (s : CanState) :
    (can_close halDeInit s).1 = if halDeInit ≠ 0 then 1 else 0 := by
  unfold can_close
  dsimp only
  split_ifs <;> rfl

theorem can_close_enabled (halDeInit : Nat) (s : CanState) :
    (can_close halDeInit s).2.enabled = if halDeInit ≠ 0 then s.enabled else 0 := by
  unfold can_close
  dsimp only
  split_ifs <;> rfl

theorem can_close_ier (halDeInit : Nat) (s : CanState) (x : CanIt) :
    (can_close halDeInit s).2.ier x = (s.ier x && !decide (x ∈ errorSources)) := by
  unfold can_close
  dsimp only
  split_ifs
  · exact can_interrupts_disable_ier s x
  · exact can_interrupts_disable_ier s x

/-- C1, as the code behaves. When `HAL_CAN_DeInit` succeeds, `can_close`
returns 0 and `enabled` is false afterwards; when it reports failure,
`can_close` returns 1 and `enabled` keeps the value it had before the call. -/
theorem can_close_enabled_by_outcome (halDeInit : Nat) (s : CanState) :
    (halDeInit = 0 →
      (can_close halDeInit s).1 = 0 ∧ (can_close halDeInit s).2.enabled = 0) ∧
    (halDeInit ≠ 0 →
      (can_close halDeInit s).1 = 1 ∧ (can_close halDeInit s).2.enabled = s.enabled) := by
  rw [can_close_status, can_close_enabled]
  constructor
  · intro h
    simp [h]
  · intro h
    simp [h]

/-- Witness for the amended C1: closing the opened interface with a
successful deinit clears `enabled`; closing the reset state with a failing
deinit returns 1 and leaves `enabled` at 0. -/
theorem can_close_enabled_by_outcome_witness :
    ((can_close 0 openedState).1 = 0 ∧ (can_close 0 openedState).2.enabled = 0) ∧
    ((can_close 1 bootState).1 = 1 ∧ (can_close 1 bootState).2.enabled = bootState.enabled) :=
  ⟨(can_close_enabled_by_outcome 0 openedState).1 rfl,
   (can_close_enabled_by_outcome 1 bootState).2 (by decide)⟩

/-- C1, counterexample. The interface is open (`enabled = 1`) and
`HAL_CAN_DeInit` returns `HAL_ERROR = 1`: `can_close` returns 1 and `enabled`
is still 1. -/
theorem can_close_failure_keeps_enabled :
    openedState.enabled = 1 ∧
    (can_close 1 openedState).1 = 1 ∧
    (can_close 1 openedState).2.enabled = 1 ∧
    ¬ (can_close 1 openedState).2.enabled = 0 := by
  decide

/-- C2. `can_open` called with `enabled = 0`: the result is 1 if
`HAL_CAN_Init` fails, and then only that HAL call was made and the interrupt
mask is as before; 2 if `HAL_CAN_Init` succeeds and `HAL_CAN_ConfigFilter`
fails; 0 otherwise; and `enabled` is true afterwards if and only if the
result is 0. -/
theorem can_open_from_closed (halInit halConfigFilter : Nat) (s : CanState)
    (hclosed : s.enabled = 0) :
    (halInit ≠ 0 →
      (can_open halInit halConfigFilter s).1 = 1 ∧
      (can_open halInit halConfigFilter s).2.log = s.log ++ [HalOp.init] ∧
      (can_open halInit halConfigFilter s).2.ier = s.ier) ∧
    (halInit = 0 → halConfigFilter ≠ 0 → (can_open halInit halConfigFilter s).1 = 2) ∧
    (halInit = 0 → halConfigFilter = 0 → (can_open halInit halConfigFilter s).1 = 0) ∧
    ((can_open halInit halConfigFilter s).2.enabled ≠ 0 ↔
      (can_open halInit halConfigFilter s).1 = 0) ∧
    ((can_open halInit halConfigFilter s).2.enabled = 1 ↔
      (can_open halInit halConfigFilter s).1 = 0) := by
  refine ⟨?_, ?_, ?_, ?_, ?_⟩
  · intro h
    unfold can_open
    dsimp only
    rw [if_pos h]
    exact ⟨rfl, rfl, rfl⟩
  · intro hi hf
    rw [can_open_status]
    simp [hi, hf]
  · intro hi hf
    rw [can_open_status]
    simp [hi, hf]
  · rw [can_open_status, can_open_enabled, hclosed]
    split_ifs <;> simp
  · rw [can_open_status, can_open_enabled, hclosed]
    split_ifs <;> simp

/-- Witness for C2 from the state after `can_init`: `HAL_CAN_Init` failing
gives 1 with only that call logged, `HAL_CAN_ConfigFilter` failing gives 2,
both succeeding gives 0, and `enabled` is 1 exactly in the last case. -/
theorem can_open_from_closed_witness :
    (can_init bootState).2.enabled = 0 ∧
    ((can_open 1 0 (can_init bootState).2).1 = 1 ∧
      (can_open 1 0 (can_init bootState).2).2.log =
        (can_init bootState).2.log ++ [HalOp.init] ∧
      (can_open 1 0 (can_init bootState).2).2.ier = (can_init bootState).2.ier) ∧
    (can_open 0 3 (can_init bootState).2).1 = 2 ∧
    (can_open 0 0 (can_init bootState).2).1 = 0 ∧
    ((can_open 0 0 (can_init bootState).2).2.enabled = 1 ↔
      (can_open 0 0 (can_init bootState).2).1 = 0) :=
  ⟨rfl,
   (can_open_from_closed 1 0 (can_init bootState).2 rfl).1 (by decide),
   (can_open_from_closed 0 3 (can_init bootState).2 rfl).2.1 rfl (by decide),
   (can_open_from_closed 0 0 (can_init bootState).2 rfl).2.2.1 rfl rfl,
   (can_open_from_closed 0 0 (can_init bootState).2 rfl).2.2.2.2⟩

/-- C3. After `can_init`, a `can_open` whose initializer succeeds and whose
filter installer fails returns 2 and leaves `enabled` false; a following
`can_close` returns a status for either deinit outcome (1 on failure, 0 on
success) and leaves `enabled` false. -/
theorem failed_open_then_close (halConfigFilter halDeInit : Nat) (s : CanState)
    (hfilter : halConfigFilter ≠ 0) :
    (can_open 0 halConfigFilter (can_init s).2).1 = 2 ∧
    (can_open 0 halConfigFilter (can_init s).2).2.enabled = 0 ∧
    (can_close halDeInit (can_open 0 halConfigFilter (can_init s).2).2).1 =
      (if halDeInit ≠ 0 then 1 else 0) ∧
    (can_close halDeInit (can_open 0 halConfigFilter (can_init s).2).2).2.enabled = 0 := by
  have he : (can_open 0 halConfigFilter (can_init s).2).2.enabled = 0 := by
    rw [can_open_enabled]
    simp [hfilter, can_init]
  refine ⟨?_, he, can_close_status _ _, ?_⟩
  · rw [can_open_status]
    simp [hfilter]
  · rw [can_close_enabled, he]
    split_ifs <;> rfl

/-- Witness for C3 from the opened state, with `HAL_CAN_ConfigFilter` returning
`HAL_ERROR` and `HAL_CAN_DeInit` failing as well. -/
theorem failed_open_then_close_witness :
    (can_open 0 1 (can_init openedState).2).1 = 2 ∧
    (can_open 0 1 (can_init openedState).2).2.enabled = 0 ∧
    (can_close 1 (can_open 0 1 (can_init openedState).2).2).1 = (if 1 ≠ 0 then 1 else 0) ∧
    (can_close 1 (can_open 0 1 (can_init openedState).2).2).2.enabled = 0 :=
  failed_open_then_close 1 1 openedState (by decide)

/-- C4. While `enabled` is false, `can_msg_pending` returns 0 for every value
of the hardware queue depth and does not read it (the state, log included, is
unchanged): so after `can_init`, after a failed `can_open` from the closed
state, and after a successful `can_close`. While `enabled` is true it reads
the queue depth of FIFO 0 and returns exactly that value (a `uint8_t`). -/
theorem msg_pending_gated (pending halInit halConfigFilter halDeInit : Nat) (s : CanState) :
    (s.enabled = 0 → can_msg_pending pending s = (0, s)) ∧
    (can_msg_pending pending (can_init s).2).1 = 0 ∧
    (s.enabled = 0 → (can_open halInit halConfigFilter s).1 ≠ 0 →
      (can_msg_pending pending (can_open halInit halConfigFilter s).2).1 = 0) ∧
    ((can_close halDeInit s).1 = 0 →
      (can_msg_pending pending (can_close halDeInit s).2).1 = 0) ∧
    (s.enabled ≠ 0 → pending < 2 ^ 8 →
      (can_msg_pending pending s).1 = pending ∧
      (can_msg_pending pending s).2.log = s.log ++ [HalOp.msgPending]) := by
  have closed : ∀ t : CanState, t.enabled = 0 → can_msg_pending pending t = (0, t) := by
    intro t ht
    unfold can_msg_pending
    rw [if_pos ht]
  refine ⟨closed s, ?_, ?_, ?_, ?_⟩
  · rw [closed _ rfl]
  · intro hs hfail
    rw [can_open_status] at hfail
    rw [closed]
    rw [can_open_enabled, hs]
    split_ifs <;> simp_all
  · intro hok
    rw [can_close_status] at hok
    rw [closed]
    rw [can_close_enabled]
    split_ifs <;> simp_all
  · intro hen hlt
    unfold can_msg_pending
    rw [if_neg hen]
    exact ⟨Nat.mod_eq_of_lt hlt, rfl⟩

/-- Witness for C4: with the hardware reporting 3 pending messages, the
result is 0 in the reset state, after a failed open and after a successful
close, and 3 in the opened state. -/
theorem msg_pending_gated_witness :
    can_msg_pending 3 bootState = (0, bootState) ∧
    (can_msg_pending 3 (can_open 0 1 bootState).2).1 = 0 ∧
    (can_msg_pending 3 (can_close 0 openedState).2).1 = 0 ∧
    ((can_msg_pending 3 openedState).1 = 3 ∧
      (can_msg_pending 3 openedState).2.log = openedState.log ++ [HalOp.msgPending]) :=
  ⟨(msg_pending_gated 3 0 0 0 bootState).1 rfl,
   (msg_pending_gated 3 0 1 0 bootState).2.2.1 rfl (by decide),
   (msg_pending_gated 3 0 0 0 openedState).2.2.2.1 (by decide),
   (msg_pending_gated 3 0 0 0 openedState).2.2.2.2 (by decide) (by decide)⟩

/-- C10. With the interrupt enable mask as a set of sources:
`can_interrupts_enable` sets exactly EWG, EPV, BOF, LEC and ERR and leaves
every other source as it was; `can_interrupts_disable` clears exactly these
five and leaves every other source as it was; `can_open` and `can_close` never
change FOV0; and after a successful `can_open` followed by `can_close` all
five sources are disabled. -/
theorem interrupt_mask_frame (halInit halConfigFilter halDeInit : Nat) (s : CanState)
    (x : CanIt) :
    (can_interrupts_enable s).ier x = (s.ier x || decide (x ∈ errorSources)) ∧
    (can_interrupts_disable s).ier x = (s.ier x && !decide (x ∈ errorSources)) ∧
    (can_open halInit halConfigFilter s).2.ier CanIt.FOV0 = s.ier CanIt.FOV0 ∧
    (can_close halDeInit s).2.ier CanIt.FOV0 = s.ier CanIt.FOV0 ∧
    ((can_open halInit halConfigFilter s).1 = 0 → x ∈ errorSources →
      (can_open halInit halConfigFilter s).2.ier x = true ∧
      (can_close halDeInit (can_open halInit halConfigFilter s).2).2.ier x = false) := by
  refine ⟨can_interrupts_enable_ier s x, can_interrupts_disable_ier s x, ?_, ?_, ?_⟩
  · rw [can_open_ier]
    split_ifs <;> simp [errorSources]
  · rw [can_close_ier]
    simp [errorSources]
  · intro hok hx
    rw [can_open_status] at hok
    have hi : halInit = 0 := by
      by_contra h
      simp [h] at hok
    have hf : halConfigFilter = 0 := by
      by_contra h
      simp [hi, h] at hok
    rw [can_close_ier, can_open_ier]
    simp [hi, hf, hx]

/-- Witness for C10: from reset, a successful `can_open` enables the bus-off
source and the following `can_close` (deinit failing) leaves it disabled. -/
theorem interrupt_mask_frame_witness :
    (can_open 0 0 bootState).2.ier CanIt.BOF = true ∧
    (can_close 1 (can_open 0 0 bootState).2).2.ier CanIt.BOF = false :=
  (interrupt_mask_frame 0 0 1 bootState CanIt.BOF).2.2.2.2 rfl (by decide)

end Canalyze
